import Mathlib

/-
Verification development for the chat-orchestration core of `main.py`
(a single-endpoint relay between an HTTP chat request and a remote
thread/run conversational service).

The embedding is shallow.  External effects are made explicit:
the token source is a map from fetch index to a token (or a failure),
each remote REST call's observable response is a field of an `Env`
record, and the status-poll loop consumes a finite trace of
observations, each carrying the wall-clock time elapsed at the moment
the loop performs its ceiling check.  Every outbound call the pipeline
performs is recorded in a `CallRecord` list, so that claims about call
ordering, call counts and authorization headers can be stated.

Python exceptions are modelled with the `PErr` sum type;
`requests.exceptions.RequestException` (transport fault or
`raise_for_status` on a non-success status) is `PErr.reqExc`,
`TimeoutError` is `PErr.timeoutErr`, and `RuntimeError` carries its
message.  `PErr.exhausted` is a model artifact only: it marks a poll
trace that ended without a deciding event, a situation the real loop
cannot reach because wall-clock time advances past the ceiling.
-/

namespace Testbi

/-- Service endpoint from the configuration block of the source. -/
def ENDPOINT : String := "https://rbhu-foundry-2.services.ai.azure.com"

/-- Project name from the configuration block of the source. -/
def PROJECT_NAME : String := "rbhu-foundry"

/-- Agent identifier from the configuration block of the source. -/
def AGENT_ID : String := "asst_3x7W3aW4wyU7zQjGyJMZtuxM"

/-- Fixed API version query-parameter value from the source. -/
def API_VERSION : String := "2025-05-01"

/-- Base URL for the threads collection, as composed in the source. -/
def BASE_URL : String := ENDPOINT ++ "/api/projects/" ++ PROJECT_NAME ++ "/threads"

/-- Default value of the `max_wait_seconds` parameter of `poll_run`. -/
def MAX_WAIT_SECONDS_DEFAULT : ℚ := 90

/-- The fixed sleep interval between status polls (`time.sleep(1.5)`). -/
def POLL_INTERVAL_SECONDS : ℚ := 3 / 2

/-- Message returned by the Python `RuntimeError` raised by `get_headers`
when the per-call token refresh fails. -/
def AUTH_FAIL_MSG : String := "Authentication token expired and could not be refreshed"

/-- Sentinel answer returned when no assistant reply is found. -/
def NO_RESPONSE : String := "No response from agent."

/-- The `text` object of a content block: `block["text"]`, whose
`"value"` key may be absent. -/
structure ContentText where
  value : Option String
deriving DecidableEq

/-- One content block of a message: the `"text"` key may be absent. -/
structure ContentBlock where
  text : Option ContentText
deriving DecidableEq

/-- A remote message record: `msg.get("role")` may be absent,
`msg.get("content", [])` defaults to the empty list. -/
structure Message where
  role : Option String
  content : List ContentBlock
deriving DecidableEq

/-- The message-scanning loop of the source `get_latest_reply`: return
the first content block's text value of the first message whose role is
"assistant" and whose first content block carries a text value;
otherwise the sentinel. -/
def get_latest_reply : List Message → String
  | [] => NO_RESPONSE
  | m :: rest =>
    if m.role = some "assistant" then
      match m.content with
      | [] => get_latest_reply rest
      | b :: _ =>
        match b.text with
        | none => get_latest_reply rest
        | some t =>
          match t.value with
          | none => get_latest_reply rest
          | some v => v
    else get_latest_reply rest

/-- The body of the messages response: `response.json().get("data", [])`;
`none` models a body with no "data" key at all. -/
def messages_of_body (body : Option (List Message)) : List Message :=
  body.getD []

/-- The run-status document returned by one poll:
`data.get("status")` and `data.get("error", {}).get("message", ...)`. -/
structure RunData where
  status : Option String
  errorMessage : Option String
deriving DecidableEq

/-- The terminal status list of the source. -/
def TERMINAL : List String := ["completed", "failed", "cancelled", "expired"]

/-- Whether a status value observed by the poll loop is terminal. -/
def is_terminal (st : Option String) : Bool :=
  match st with
  | some s => s ∈ TERMINAL
  | none => false

deriving instance DecidableEq for Except

/-- One observation available to the poll loop: the wall-clock time
elapsed since the poll started, measured at the ceiling check of this
iteration, and the outcome of the status GET of this iteration
(`Except.error` is a transport fault or non-success status). -/
structure PollStep where
  elapsed : ℚ
  resp : Except Unit RunData
deriving DecidableEq

/-- Which of the five outbound REST calls a record describes. -/
inductive CallKind
  | createThread
  | sendMessage
  | startRun
  | pollStatus
  | fetchMessages
deriving DecidableEq

/-- Request payload of an outbound call. -/
inductive CallBody
  | empty
  | userMessage (content : String)
  | runStart (assistantId : String)
deriving DecidableEq

/-- One outbound remote call as performed by the pipeline: its kind, the
full URL, the Authorization header sent, the payload, and the index of
the token fetch that produced the header (the source fetches a fresh
token inside `get_headers()` immediately before every call). -/
structure CallRecord where
  kind : CallKind
  url : String
  authHeader : String
  body : CallBody
  tokenIndex : Nat
deriving DecidableEq

/-- Python exceptions that the `chat` handler distinguishes. -/
inductive PErr
  | reqExc
  | timeoutErr
  | runtimeErr (msg : String)
  | exhausted
deriving DecidableEq

/-- Result of running a pipeline fragment: the outbound calls it
performed in order, the next unused token-fetch index, and its result
or the exception it raised. -/
structure Step (α : Type) where
  calls : List CallRecord
  nextTok : Nat
  res : Except PErr α

/-- The token source: fetch number `k` yields a bearer token or fails. -/
def TokenSource : Type := Nat → Except Unit String

/-- The Authorization header value built by `get_headers`. -/
def bearer (t : String) : String := "Bearer " ++ t

/-- One remote REST call: fetch a fresh token (a failure raises the
`RuntimeError` of `get_headers` and performs no call), then perform the
call; a transport fault or non-success status raises
`requests.exceptions.RequestException` (via `raise_for_status`). -/
def remote_call {α : Type} (ts : TokenSource) (k : Nat) (ck : CallKind)
    (url : String) (payload : CallBody) (resp : Except Unit α) : Step α :=
  match ts k with
  | .error _ => ⟨[], k + 1, .error (.runtimeErr AUTH_FAIL_MSG)⟩
  | .ok tok =>
    match resp with
    | .error _ => ⟨[⟨ck, url, bearer tok, payload, k⟩], k + 1, .error .reqExc⟩
    | .ok a => ⟨[⟨ck, url, bearer tok, payload, k⟩], k + 1, .ok a⟩

/-- `create_thread`: POST the threads collection, parse the id. -/
def create_thread (ts : TokenSource) (k : Nat) (resp : Except Unit String) :
    Step String :=
  remote_call ts k .createThread (BASE_URL ++ "?api-version=" ++ API_VERSION)
    .empty resp

/-- `send_message`: POST a user message to the thread. -/
def send_message (ts : TokenSource) (k : Nat) (tid content : String)
    (resp : Except Unit Unit) : Step Unit :=
  remote_call ts k .sendMessage
    ((BASE_URL ++ "/" ++ tid ++ "/messages") ++ "?api-version=" ++ API_VERSION)
    (.userMessage content) resp

/-- `start_run`: POST a run for the fixed agent, parse the id. -/
def start_run (ts : TokenSource) (k : Nat) (tid : String)
    (resp : Except Unit String) : Step String :=
  remote_call ts k .startRun
    ((BASE_URL ++ "/" ++ tid ++ "/runs") ++ "?api-version=" ++ API_VERSION)
    (.runStart AGENT_ID) resp

/-- URL of the run-status GET. -/
def run_status_url (tid rid : String) : String :=
  (BASE_URL ++ "/" ++ tid ++ "/runs/" ++ rid) ++ "?api-version=" ++ API_VERSION

/-- The poll loop of `poll_run`.  Each iteration first compares elapsed
wall-clock time against the ceiling (raising `TimeoutError` when
exceeded, before any further fetch), then fetches a fresh token and the
run status, then acts on the status: a terminal status other than
"completed" raises the run-failure `RuntimeError`, "completed" returns,
and anything else sleeps and repeats.  The finite observation trace
replaces the unbounded real-time loop; running out of trace yields the
model-artifact `PErr.exhausted`. -/
def poll_run (ts : TokenSource) (tid rid : String) (max_wait_seconds : ℚ) :
    List PollStep → Nat → Step Unit
  | [], k => ⟨[], k, .error .exhausted⟩
  | s :: rest, k =>
    if max_wait_seconds < s.elapsed then ⟨[], k, .error .timeoutErr⟩
    else
      match ts k with
      | .error _ => ⟨[], k + 1, .error (.runtimeErr AUTH_FAIL_MSG)⟩
      | .ok tok =>
        let c : CallRecord :=
          ⟨.pollStatus, run_status_url tid rid, bearer tok, .empty, k⟩
        match s.resp with
        | .error _ => ⟨[c], k + 1, .error .reqExc⟩
        | .ok data =>
          match data.status with
          | some st =>
            if st ∈ TERMINAL then
              if st ≠ "completed" then
                ⟨[c], k + 1, .error (.runtimeErr ("Agent run failed: " ++ st
                  ++ " - " ++ data.errorMessage.getD "Unknown error"))⟩
              else ⟨[c], k + 1, .ok ()⟩
            else
              let r := poll_run ts tid rid max_wait_seconds rest (k + 1)
              ⟨c :: r.calls, r.nextTok, r.res⟩
          | none =>
            let r := poll_run ts tid rid max_wait_seconds rest (k + 1)
            ⟨c :: r.calls, r.nextTok, r.res⟩

/-- The fetch half of the source `get_latest_reply`: GET the messages of
the thread, default the missing "data" key to the empty list, and scan
for the assistant reply. -/
def get_latest_reply_call (ts : TokenSource) (k : Nat) (tid : String)
    (resp : Except Unit (Option (List Message))) : Step String :=
  match remote_call ts k .fetchMessages
      ((BASE_URL ++ "/" ++ tid ++ "/messages") ++ "?api-version=" ++ API_VERSION)
      .empty resp with
  | ⟨cs, k2, .ok body⟩ => ⟨cs, k2, .ok (get_latest_reply (messages_of_body body))⟩
  | ⟨cs, k2, .error e⟩ => ⟨cs, k2, .error e⟩

/-- Python `str.strip()`: remove leading and trailing whitespace. -/
def py_strip (s : String) : String :=
  ⟨(((s.data.dropWhile Char.isWhitespace).reverse.dropWhile
      Char.isWhitespace).reverse)⟩

/-- The inbound chat request body. -/
structure ChatRequest where
  userQuery : String
  context : Option String
  userId : Option String

/-- The caller-visible outcome of one chat request, together with the
outbound calls the pipeline performed. -/
structure ChatOutcome where
  status : Nat
  answer : Option String
  calls : List CallRecord
deriving DecidableEq

/-- The observable behaviour of the external world during one request:
the token source and the responses of the five remote interactions. -/
structure Env where
  tokenSource : TokenSource
  createThreadResp : Except Unit String
  sendMessageResp : Except Unit Unit
  startRunResp : Except Unit String
  pollSteps : List PollStep
  messagesResp : Except Unit (Option (List Message))

/-- The try-block of the `chat` handler: the five pipeline stages in
strict sequence, each started only if the previous one succeeded,
accumulating the outbound calls.  The stripped query is the message
content; the poll runs with the default ceiling. -/
def run_pipeline (env : Env) (q : String) : Step String :=
  let s1 := create_thread env.tokenSource 0 env.createThreadResp
  match s1.res with
  | .error e => ⟨s1.calls, s1.nextTok, .error e⟩
  | .ok tid =>
    let s2 := send_message env.tokenSource s1.nextTok tid q env.sendMessageResp
    match s2.res with
    | .error e => ⟨s1.calls ++ s2.calls, s2.nextTok, .error e⟩
    | .ok _ =>
      let s3 := start_run env.tokenSource s2.nextTok tid env.startRunResp
      match s3.res with
      | .error e => ⟨s1.calls ++ s2.calls ++ s3.calls, s3.nextTok, .error e⟩
      | .ok rid =>
        let s4 := poll_run env.tokenSource tid rid MAX_WAIT_SECONDS_DEFAULT
          env.pollSteps s3.nextTok
        match s4.res with
        | .error e =>
          ⟨s1.calls ++ s2.calls ++ s3.calls ++ s4.calls, s4.nextTok, .error e⟩
        | .ok _ =>
          let s5 := get_latest_reply_call env.tokenSource s4.nextTok tid
            env.messagesResp
          ⟨s1.calls ++ s2.calls ++ s3.calls ++ s4.calls ++ s5.calls,
            s5.nextTok, s5.res⟩

/-- The except-clauses of the `chat` handler: map an escaped exception
to the HTTP status of the response. -/
def classify : PErr → Nat
  | .reqExc => 502
  | .timeoutErr => 504
  | _ => 500

/-- The `chat` endpoint handler: strip the query, reject an empty one
with 400 before any outbound call, otherwise run the pipeline and map
the result. -/
def chat (env : Env) (req : ChatRequest) : ChatOutcome :=
  let user_query := py_strip req.userQuery
  if user_query = "" then ⟨400, none, []⟩
  else
    let s := run_pipeline env user_query
    match s.res with
    | .ok a => ⟨200, some a, s.calls⟩
    | .error e => ⟨classify e, none, s.calls⟩

/-- The selection predicate implicit in the scanning loop of
`get_latest_reply`: role is "assistant", the content list is non-empty,
and its first block carries a text value. -/
def assistant_with_text (m : Message) : Bool :=
  if m.role = some "assistant" then
    match m.content with
    | [] => false
    | b :: _ =>
      match b.text with
      | some t => t.value.isSome
      | none => false
  else false

/-- The text value of the first content block of a message, when present. -/
def first_block_text (m : Message) : Option String :=
  m.content.head?.bind (fun b => b.text.bind ContentText.value)

lemma get_latest_reply_eq_find (msgs : List Message) :
    get_latest_reply msgs =
      ((msgs.find? assistant_with_text).bind first_block_text).getD NO_RESPONSE := by
  induction msgs with
  | nil => rfl
  | cons m rest ih =>
    by_cases hrole : m.role = some "assistant"
    · cases hc : m.content with
      | nil =>
        simp [get_latest_reply, List.find?, assistant_with_text, hrole, hc, ih]
      | cons b bs =>
        cases ht : b.text with
        | none =>
          simp [get_latest_reply, List.find?, assistant_with_text, hrole, hc, ht, ih]
        | some t =>
          cases hv : t.value with
          | none =>
            simp [get_latest_reply, List.find?, assistant_with_text, hrole, hc, ht,
              hv, ih]
          | some v =>
            simp [get_latest_reply, List.find?, assistant_with_text, hrole, hc, ht,
              hv, first_block_text]
    · simp [get_latest_reply, List.find?, assistant_with_text, hrole, ih]

/-- C2: the reply extractor returns the text value of the first content
block of the first assistant-role message that carries a non-empty text
content block, scanning the list in the order given; when no such
message exists it returns exactly the sentinel "No response from
agent." without failing. -/
theorem C2_reply_extraction :
    (∀ msgs : List Message,
      get_latest_reply msgs =
        ((msgs.find? assistant_with_text).bind first_block_text).getD NO_RESPONSE)
    ∧ (∀ msgs : List Message,
        (∀ m ∈ msgs, assistant_with_text m = false) →
        get_latest_reply msgs = NO_RESPONSE) := by
  refine ⟨get_latest_reply_eq_find, fun msgs h => ?_⟩
  rw [get_latest_reply_eq_find, List.find?_eq_none.mpr]
  · rfl
  · intro m hm
    simp [h m hm]

/-- Witness for C2 at a concrete input: a list containing a user message
and an assistant message with no content yields the sentinel. -/
theorem C2_reply_extraction_witness :
    get_latest_reply
      [⟨some "user", [⟨some ⟨some "hello"⟩⟩]⟩, ⟨some "assistant", []⟩] =
      NO_RESPONSE :=
  C2_reply_extraction.2
    [⟨some "user", [⟨some ⟨some "hello"⟩⟩]⟩, ⟨some "assistant", []⟩] (by decide)

/-- C10: a messages body with no "data" field is treated as the empty
message list and yields the sentinel rather than an error, and an
assistant message whose first content block lacks a text value is
skipped rather than causing a failure. -/
theorem C10_missing_data_safe :
    (messages_of_body none = ([] : List Message))
    ∧ (get_latest_reply (messages_of_body none) = NO_RESPONSE)
    ∧ (∀ (b : ContentBlock) (bs : List ContentBlock) (rest : List Message),
        b.text.bind ContentText.value = none →
        get_latest_reply (⟨some "assistant", b :: bs⟩ :: rest) =
          get_latest_reply rest) := by
  refine ⟨rfl, rfl, fun b bs rest h => ?_⟩
  cases ht : b.text with
  | none => simp [get_latest_reply, ht]
  | some t =>
    rw [ht] at h
    simp only [Option.some_bind] at h
    simp [get_latest_reply, ht, h]

/-- Witness for C10 at a concrete input: an assistant message whose only
content block has no text is skipped. -/
theorem C10_missing_data_safe_witness :
    get_latest_reply [⟨some "assistant", [(⟨none⟩ : ContentBlock)]⟩] =
      get_latest_reply [] :=
  C10_missing_data_safe.2.2 ⟨none⟩ [] [] (by decide)

/-- Substring containment, used to state what a failure message carries. -/
def str_contains (s pat : String) : Prop := ∃ p q, s = p ++ pat ++ q

lemma poll_run_cons_timeout {ts : TokenSource} {tid rid : String} {w : ℚ}
    {p : PollStep} {rest : List PollStep} {k : Nat} (hcross : w < p.elapsed) :
    poll_run ts tid rid w (p :: rest) k = ⟨[], k, .error .timeoutErr⟩ := by
  simp [poll_run, hcross]

lemma poll_run_cons_continue {ts : TokenSource} {tid rid : String} {w : ℚ}
    {p : PollStep} {rest : List PollStep} {k : Nat} {t : String} {d : RunData}
    (hel : p.elapsed ≤ w) (ht : ts k = .ok t) (hresp : p.resp = .ok d)
    (hterm : is_terminal d.status = false) :
    poll_run ts tid rid w (p :: rest) k =
      ⟨⟨.pollStatus, run_status_url tid rid, bearer t, .empty, k⟩ ::
          (poll_run ts tid rid w rest (k + 1)).calls,
        (poll_run ts tid rid w rest (k + 1)).nextTok,
        (poll_run ts tid rid w rest (k + 1)).res⟩ := by
  cases hstat : d.status with
  | none => simp [poll_run, not_lt.mpr hel, ht, hresp, hstat]
  | some st =>
    have hmem : st ∉ TERMINAL := by
      rw [hstat] at hterm
      simpa [is_terminal] using hterm
    simp [poll_run, not_lt.mpr hel, ht, hresp, hstat, hmem]

lemma poll_run_cons_completed {ts : TokenSource} {tid rid : String} {w : ℚ}
    {p : PollStep} {rest : List PollStep} {k : Nat} {t : String} {d : RunData}
    (hel : p.elapsed ≤ w) (ht : ts k = .ok t) (hresp : p.resp = .ok d)
    (hstat : d.status = some "completed") :
    poll_run ts tid rid w (p :: rest) k =
      ⟨[⟨.pollStatus, run_status_url tid rid, bearer t, .empty, k⟩], k + 1,
        .ok ()⟩ := by
  simp [poll_run, not_lt.mpr hel, ht, hresp, hstat, TERMINAL]

lemma poll_run_cons_failed {ts : TokenSource} {tid rid : String} {w : ℚ}
    {p : PollStep} {rest : List PollStep} {k : Nat} {t : String} {d : RunData}
    {st : String} (hel : p.elapsed ≤ w) (ht : ts k = .ok t)
    (hresp : p.resp = .ok d) (hstat : d.status = some st)
    (hmem : st ∈ TERMINAL) (hne : st ≠ "completed") :
    poll_run ts tid rid w (p :: rest) k =
      ⟨[⟨.pollStatus, run_status_url tid rid, bearer t, .empty, k⟩], k + 1,
        .error (.runtimeErr ("Agent run failed: " ++ st ++ " - " ++
          d.errorMessage.getD "Unknown error"))⟩ := by
  simp [poll_run, not_lt.mpr hel, ht, hresp, hstat, hmem, hne]

lemma poll_run_skip {ts : TokenSource} {tid rid : String} {w : ℚ}
    (front : List PollStep) {rest : List PollStep} (k : Nat)
    (hfront : ∀ p ∈ front, p.elapsed ≤ w ∧
      ∃ d, p.resp = .ok d ∧ is_terminal d.status = false)
    (htok : ∀ i, i < front.length → ∃ t, ts (k + i) = .ok t) :
    (poll_run ts tid rid w (front ++ rest) k).res =
      (poll_run ts tid rid w rest (k + front.length)).res ∧
    (poll_run ts tid rid w (front ++ rest) k).calls.length =
      front.length + (poll_run ts tid rid w rest (k + front.length)).calls.length := by
  induction front generalizing k with
  | nil => simp
  | cons p front ih =>
    obtain ⟨hel, d, hresp, hterm⟩ := hfront p (List.mem_cons_self p front)
    obtain ⟨t, ht⟩ := htok 0 (by simp)
    rw [Nat.add_zero] at ht
    have ih' := ih (k + 1)
      (fun q hq => hfront q (List.mem_cons_of_mem p hq))
      (fun i hi => by
        have := htok (i + 1) (by simpa using hi)
        simpa [Nat.add_assoc, Nat.add_comm 1 i] using this)
    have hk : k + 1 + front.length = k + (front.length + 1) := by omega
    rw [hk] at ih'
    rw [List.cons_append, poll_run_cons_continue hel ht hresp hterm]
    refine ⟨ih'.1, ?_⟩
    show (⟨.pollStatus, run_status_url tid rid, bearer t, .empty, k⟩ ::
      (poll_run ts tid rid w (front ++ rest) (k + 1)).calls).length = _
    simp only [List.length_cons]
    rw [ih'.2]
    omega

/-- C4: if the observed statuses never reach a terminal value, the
poller raises `TimeoutError` at the first ceiling check whose elapsed
wall-clock time exceeds `max_wait_seconds` (whose default is 90), and
performs no status fetch after the ceiling has been crossed: the
fetches are exactly the ones before the crossing. -/
theorem C4_poll_timeout (ts : TokenSource) (tid rid : String) (w : ℚ)
    (front : List PollStep) (s : PollStep) (rest : List PollStep) (k : Nat)
    (hfront : ∀ p ∈ front, p.elapsed ≤ w ∧
      ∃ d, p.resp = .ok d ∧ is_terminal d.status = false)
    (htok : ∀ i, i < front.length → ∃ t, ts (k + i) = .ok t)
    (hcross : w < s.elapsed) :
    MAX_WAIT_SECONDS_DEFAULT = 90 ∧
    (poll_run ts tid rid w (front ++ s :: rest) k).res = .error .timeoutErr ∧
    (poll_run ts tid rid w (front ++ s :: rest) k).calls.length = front.length := by
  obtain ⟨hres, hlen⟩ := poll_run_skip front k hfront htok
  refine ⟨rfl, ?_, ?_⟩
  · rw [hres, poll_run_cons_timeout hcross]
  · rw [hlen, poll_run_cons_timeout hcross]
    simp

/-- Witness for C4: one in-ceiling non-terminal fetch, then the clock
crosses the 90-second default ceiling: timeout after exactly one fetch. -/
theorem C4_poll_timeout_witness :
    (poll_run (fun n => .ok (toString n)) "th" "ru" MAX_WAIT_SECONDS_DEFAULT
      ([⟨0, .ok ⟨some "queued", none⟩⟩] ++ ⟨91, .ok ⟨some "queued", none⟩⟩ ::
        []) 0).res = .error .timeoutErr :=
  (C4_poll_timeout (fun n => .ok (toString n)) "th" "ru" MAX_WAIT_SECONDS_DEFAULT
    [⟨0, .ok ⟨some "queued", none⟩⟩] ⟨91, .ok ⟨some "queued", none⟩⟩ [] 0
    (by intro p hp; simp at hp; subst hp; exact ⟨by norm_num [MAX_WAIT_SECONDS_DEFAULT], _, rfl, rfl⟩)
    (by intro i hi; exact ⟨toString (0 + i), rfl⟩)
    (by norm_num [MAX_WAIT_SECONDS_DEFAULT])).2.1

/-- C5: if the poller sees non-terminal statuses on the first N−1
fetches (the wall clock advancing by at least the fixed 1.5-second
sleep between consecutive checks) and sees "completed" on the Nth fetch
with the ceiling never exceeded at any check, it returns successfully
having performed exactly N status fetches. -/
theorem C5_poll_exact_fetches (ts : TokenSource) (tid rid : String) (w : ℚ)
    (front : List PollStep) (s : PollStep) (rest : List PollStep) (k : Nat)
    (hfront : ∀ p ∈ front, p.elapsed ≤ w ∧
      ∃ d, p.resp = .ok d ∧ is_terminal d.status = false)
    (hsleep : List.Chain'
      (fun a b => a.elapsed + POLL_INTERVAL_SECONDS ≤ b.elapsed) (front ++ [s]))
    (htok : ∀ i, i < front.length + 1 → ∃ t, ts (k + i) = .ok t)
    (hin : s.elapsed ≤ w)
    (hcomp : ∃ d, s.resp = .ok d ∧ d.status = some "completed") :
    (poll_run ts tid rid w (front ++ s :: rest) k).res = .ok () ∧
    (poll_run ts tid rid w (front ++ s :: rest) k).calls.length =
      front.length + 1 := by
  obtain ⟨d, hresp, hstat⟩ := hcomp
  obtain ⟨hres, hlen⟩ := poll_run_skip front k hfront
    (fun i hi => htok i (by omega))
  obtain ⟨t, ht⟩ := htok front.length (by omega)
  refine ⟨?_, ?_⟩
  · rw [hres, poll_run_cons_completed hin ht hresp hstat]
  · rw [hlen, poll_run_cons_completed hin ht hresp hstat]
    simp

/-- Witness for C5 with N = 2: one non-terminal fetch, a 1.5-second
sleep, then "completed": success after exactly two fetches. -/
theorem C5_poll_exact_fetches_witness :
    (poll_run (fun n => .ok (toString n)) "th" "ru" MAX_WAIT_SECONDS_DEFAULT
      ([⟨0, .ok ⟨some "in_progress", none⟩⟩] ++
        ⟨POLL_INTERVAL_SECONDS, .ok ⟨some "completed", none⟩⟩ :: []) 0).calls.length =
      1 + 1 :=
  (C5_poll_exact_fetches (fun n => .ok (toString n)) "th" "ru"
    MAX_WAIT_SECONDS_DEFAULT [⟨0, .ok ⟨some "in_progress", none⟩⟩]
    ⟨POLL_INTERVAL_SECONDS, .ok ⟨some "completed", none⟩⟩ [] 0
    (by intro p hp; simp at hp; subst hp; exact ⟨by norm_num [MAX_WAIT_SECONDS_DEFAULT], _, rfl, rfl⟩)
    (by simp [POLL_INTERVAL_SECONDS])
    (by intro i hi; exact ⟨toString (0 + i), rfl⟩)
    (by norm_num [MAX_WAIT_SECONDS_DEFAULT, POLL_INTERVAL_SECONDS])
    ⟨_, rfl, rfl⟩).2

/-- C7: a poll observation with a terminal status other than
"completed" makes the poller raise the run-failure error, whose message
contains that status and the remote error message, the latter
defaulting to "Unknown error" when the remote response carries none. -/
theorem C7_run_failure_message (ts : TokenSource) (tid rid : String) (w : ℚ)
    (front : List PollStep) (s : PollStep) (rest : List PollStep) (k : Nat)
    (d : RunData) (st : String)
    (hfront : ∀ p ∈ front, p.elapsed ≤ w ∧
      ∃ e, p.resp = .ok e ∧ is_terminal e.status = false)
    (htok : ∀ i, i < front.length + 1 → ∃ t, ts (k + i) = .ok t)
    (hin : s.elapsed ≤ w) (hresp : s.resp = .ok d) (hstat : d.status = some st)
    (hterm : st ∈ TERMINAL) (hne : st ≠ "completed") :
    ∃ m, (poll_run ts tid rid w (front ++ s :: rest) k).res =
        .error (.runtimeErr m) ∧
      m = "Agent run failed: " ++ st ++ " - " ++
        d.errorMessage.getD "Unknown error" ∧
      str_contains m st ∧
      str_contains m (d.errorMessage.getD "Unknown error") ∧
      (d.errorMessage = none → str_contains m "Unknown error") := by
  obtain ⟨hres, _⟩ := poll_run_skip front k hfront (fun i hi => htok i (by omega))
  obtain ⟨t, ht⟩ := htok front.length (by omega)
  refine ⟨_, by rw [hres, poll_run_cons_failed hin ht hresp hstat hterm hne], rfl,
    ⟨"Agent run failed: ", " - " ++ d.errorMessage.getD "Unknown error",
      by simp [String.append_assoc]⟩,
    ⟨"Agent run failed: " ++ st ++ " - ", "", by simp [String.append_assoc]⟩,
    fun hnone => ⟨"Agent run failed: " ++ st ++ " - ", "",
      by simp [hnone, String.append_assoc]⟩⟩

/-- Witness for C7: a first-poll "failed" status with no remote error
message produces the run-failure error with the default message text. -/
theorem C7_run_failure_message_witness :
    ∃ m, (poll_run (fun n => .ok (toString n)) "th" "ru"
        MAX_WAIT_SECONDS_DEFAULT
        (([] : List PollStep) ++ ⟨0, .ok ⟨some "failed", none⟩⟩ :: []) 0).res =
        .error (.runtimeErr m) ∧
      m = "Agent run failed: " ++ "failed" ++ " - " ++
        (none : Option String).getD "Unknown error" ∧
      str_contains m "failed" ∧
      str_contains m ((none : Option String).getD "Unknown error") ∧
      ((none : Option String) = none → str_contains m "Unknown error") :=
  C7_run_failure_message (fun n => .ok (toString n)) "th" "ru"
    MAX_WAIT_SECONDS_DEFAULT [] ⟨0, .ok ⟨some "failed", none⟩⟩ [] 0
    ⟨some "failed", none⟩ "failed"
    (by intro p hp; simp at hp)
    (by intro i hi; exact ⟨toString (0 + i), rfl⟩)
    (by norm_num [MAX_WAIT_SECONDS_DEFAULT]) rfl rfl (by simp [TERMINAL])
    (by decide)

/-- Well-formedness of one outbound call: its Authorization header is
"Bearer " followed by exactly the token produced by its own token
fetch, and its URL carries the fixed API-version query parameter. -/
def call_wf (ts : TokenSource) (c : CallRecord) : Prop :=
  (∃ t, ts c.tokenIndex = .ok t ∧ c.authHeader = bearer t) ∧
  (∃ p, c.url = p ++ "?api-version=" ++ API_VERSION)

/-- The token-fetch indices of a call list are consecutive from `a`. -/
def consec (a : Nat) (l : List CallRecord) : Prop :=
  l.map CallRecord.tokenIndex = List.range' a l.length

lemma consec_nil (a : Nat) : consec a [] := by simp [consec]

lemma consec_singleton (a : Nat) (c : CallRecord) (h : c.tokenIndex = a) :
    consec a [c] := by simp [consec, h, List.range']

lemma consec_append {a : Nat} {l1 l2 : List CallRecord} (h1 : consec a l1)
    (h2 : consec (a + l1.length) l2) : consec a (l1 ++ l2) := by
  unfold consec at *
  rw [List.map_append, h1, h2, List.length_append]
  have h := List.range'_append a l1.length l2.length 1
  simp only [one_mul] at h
  rw [Nat.add_comm l2.length l1.length] at h
  exact h

lemma remote_call_nextTok {α : Type} (ts : TokenSource) (k : Nat)
    (ck : CallKind) (url : String) (payload : CallBody)
    (resp : Except Unit α) :
    (remote_call ts k ck url payload resp).nextTok = k + 1 := by
  unfold remote_call
  cases ts k <;> cases resp <;> rfl

lemma remote_call_cases {α : Type} (ts : TokenSource) (k : Nat)
    (ck : CallKind) (url : String) (payload : CallBody)
    (resp : Except Unit α) :
    ((remote_call ts k ck url payload resp).calls = [] ∧
      (remote_call ts k ck url payload resp).res =
        .error (.runtimeErr AUTH_FAIL_MSG))
    ∨ ∃ t, ts k = .ok t ∧
        (remote_call ts k ck url payload resp).calls =
          [⟨ck, url, bearer t, payload, k⟩] ∧
        ((remote_call ts k ck url payload resp).res = .error .reqExc ∨
          ∃ a, resp = .ok a ∧
            (remote_call ts k ck url payload resp).res = .ok a) := by
  unfold remote_call
  cases hts : ts k with
  | error u => exact Or.inl ⟨rfl, rfl⟩
  | ok t =>
    cases resp with
    | error u => exact Or.inr ⟨t, rfl, rfl, Or.inl rfl⟩
    | ok a => exact Or.inr ⟨t, rfl, rfl, Or.inr ⟨a, rfl, rfl⟩⟩

lemma remote_call_wf {α : Type} (ts : TokenSource) (k : Nat) (ck : CallKind)
    (url : String) (payload : CallBody) (resp : Except Unit α)
    (hurl : ∃ p, url = p ++ "?api-version=" ++ API_VERSION) :
    ∀ c ∈ (remote_call ts k ck url payload resp).calls, call_wf ts c := by
  intro c hc
  unfold remote_call at hc
  cases hts : ts k with
  | error u => rw [hts] at hc; simp at hc
  | ok t =>
    rw [hts] at hc
    cases resp with
    | error u =>
      simp at hc
      subst hc
      exact ⟨⟨t, hts, rfl⟩, hurl⟩
    | ok a =>
      simp at hc
      subst hc
      exact ⟨⟨t, hts, rfl⟩, hurl⟩

lemma poll_run_shape (ts : TokenSource) (tid rid : String) (w : ℚ) :
    ∀ (steps : List PollStep) (k : Nat),
    consec k (poll_run ts tid rid w steps k).calls ∧
    ((poll_run ts tid rid w steps k).calls.map CallRecord.kind =
      List.replicate (poll_run ts tid rid w steps k).calls.length .pollStatus) ∧
    (∀ c ∈ (poll_run ts tid rid w steps k).calls, call_wf ts c) ∧
    ((poll_run ts tid rid w steps k).res = .ok () →
      (poll_run ts tid rid w steps k).nextTok =
        k + (poll_run ts tid rid w steps k).calls.length) := by
  intro steps
  induction steps with
  | nil =>
    intro k
    simp [poll_run, consec_nil]
  | cons p rest ih =>
    intro k
    by_cases hcr : w < p.elapsed
    · rw [poll_run_cons_timeout hcr]
      simp [consec_nil]
    · have hle : p.elapsed ≤ w := not_lt.mp hcr
      cases htk : ts k with
      | error u =>
        have heq : poll_run ts tid rid w (p :: rest) k =
            ⟨[], k + 1, .error (.runtimeErr AUTH_FAIL_MSG)⟩ := by
          simp [poll_run, hcr, htk]
        rw [heq]
        simp [consec_nil]
      | ok t =>
        cases hresp : p.resp with
        | error u =>
          have heq : poll_run ts tid rid w (p :: rest) k =
              ⟨[⟨.pollStatus, run_status_url tid rid, bearer t, .empty, k⟩],
                k + 1, .error .reqExc⟩ := by
            simp [poll_run, hcr, htk, hresp]
          rw [heq]
          refine ⟨consec_singleton k _ rfl, by simp, ?_, by simp⟩
          intro c hc
          simp at hc
          subst hc
          exact ⟨⟨t, htk, rfl⟩, ⟨BASE_URL ++ "/" ++ tid ++ "/runs/" ++ rid, rfl⟩⟩
        | ok d =>
          by_cases hterm : is_terminal d.status = false
          · rw [poll_run_cons_continue hle htk hresp hterm]
            obtain ⟨ih1, ih2, ih3, ih4⟩ := ih (k + 1)
            refine ⟨?_, ?_, ?_, ?_⟩
            · show consec k ([⟨.pollStatus, run_status_url tid rid, bearer t,
                .empty, k⟩] ++ (poll_run ts tid rid w rest (k + 1)).calls)
              exact consec_append (consec_singleton k _ rfl) (by simpa using ih1)
            · show ((⟨.pollStatus, run_status_url tid rid, bearer t, .empty, k⟩ ::
                (poll_run ts tid rid w rest (k + 1)).calls).map CallRecord.kind) = _
              simp [ih2, List.replicate_succ]
            · intro c hc
              rcases List.mem_cons.mp hc with hc | hc
              · subst hc
                exact ⟨⟨t, htk, rfl⟩,
                  ⟨BASE_URL ++ "/" ++ tid ++ "/runs/" ++ rid, rfl⟩⟩
              · exact ih3 c hc
            · intro hok
              have := ih4 hok
              show (poll_run ts tid rid w rest (k + 1)).nextTok = _
              rw [this]
              simp [List.length_cons]
              omega
          · have hterm' : is_terminal d.status = true := by
              revert hterm
              cases is_terminal d.status <;> simp
            obtain ⟨st, hstat, hmem⟩ :
                ∃ st, d.status = some st ∧ st ∈ TERMINAL := by
              cases hstat : d.status with
              | none => rw [hstat] at hterm'; simp [is_terminal] at hterm'
              | some st =>
                rw [hstat] at hterm'
                exact ⟨st, rfl, by simpa [is_terminal] using hterm'⟩
            by_cases hcomp : st = "completed"
            · subst hcomp
              rw [poll_run_cons_completed hle htk hresp hstat]
              refine ⟨consec_singleton k _ rfl, by simp, ?_, by simp⟩
              intro c hc
              simp at hc
              subst hc
              exact ⟨⟨t, htk, rfl⟩,
                ⟨BASE_URL ++ "/" ++ tid ++ "/runs/" ++ rid, rfl⟩⟩
            · rw [poll_run_cons_failed hle htk hresp hstat hmem hcomp]
              refine ⟨consec_singleton k _ rfl, by simp, ?_, by simp⟩
              intro c hc
              simp at hc
              subst hc
              exact ⟨⟨t, htk, rfl⟩,
                ⟨BASE_URL ++ "/" ++ tid ++ "/runs/" ++ rid, rfl⟩⟩

lemma get_latest_reply_call_eq (ts : TokenSource) (k : Nat) (tid : String)
    (resp : Except Unit (Option (List Message))) :
    (get_latest_reply_call ts k tid resp).calls =
      (remote_call ts k .fetchMessages
        ((BASE_URL ++ "/" ++ tid ++ "/messages") ++ "?api-version=" ++
          API_VERSION) .empty resp).calls ∧
    (get_latest_reply_call ts k tid resp).nextTok =
      (remote_call ts k .fetchMessages
        ((BASE_URL ++ "/" ++ tid ++ "/messages") ++ "?api-version=" ++
          API_VERSION) .empty resp).nextTok ∧
    (get_latest_reply_call ts k tid resp).res =
      ((remote_call ts k .fetchMessages
        ((BASE_URL ++ "/" ++ tid ++ "/messages") ++ "?api-version=" ++
          API_VERSION) .empty resp).res).map
        (fun body => get_latest_reply (messages_of_body body)) := by
  unfold get_latest_reply_call
  cases h : remote_call ts k .fetchMessages
      ((BASE_URL ++ "/" ++ tid ++ "/messages") ++ "?api-version=" ++
        API_VERSION) .empty resp with
  | mk cs k2 r => cases r <;> simp [Except.map]

/-- The kind sequence of a complete pipeline run with `n` status polls. -/
def pipeline_kinds (n : Nat) : List CallKind :=
  [.createThread, .sendMessage, .startRun] ++
    List.replicate n .pollStatus ++ [.fetchMessages]

lemma consec_cons (a : Nat) (c : CallRecord) (l : List CallRecord)
    (hc : c.tokenIndex = a) (hl : consec (a + 1) l) : consec a (c :: l) := by
  unfold consec at *
  rw [List.map_cons, List.length_cons, List.range'_succ, hc, hl]

lemma run_pipeline_facts (env : Env) (q : String) :
    consec 0 (run_pipeline env q).calls ∧
    (∀ c ∈ (run_pipeline env q).calls, call_wf env.tokenSource c) ∧
    (∀ a, (run_pipeline env q).res = .ok a →
      ∃ n, (run_pipeline env q).calls.map CallRecord.kind = pipeline_kinds n) ∧
    (∀ e, (run_pipeline env q).res = .error e →
      ∃ n t, pipeline_kinds n =
        (run_pipeline env q).calls.map CallRecord.kind ++ t) := by
  simp only [run_pipeline, create_thread, send_message, start_run]
  split
  · -- stage 1 raised
    rcases remote_call_cases env.tokenSource 0 .createThread
        (BASE_URL ++ "?api-version=" ++ API_VERSION) .empty
        env.createThreadResp with ⟨hc1, hr1⟩ | ⟨t1, ht1, hc1, hres1⟩
    · rw [hc1]
      refine ⟨consec_nil 0, by simp, by simp, fun e he => ⟨0, pipeline_kinds 0, by simp⟩⟩
    · rw [hc1]
      refine ⟨consec_singleton 0 _ rfl, ?_, by simp, ?_⟩
      · intro c hc
        simp at hc
        subst hc
        exact ⟨⟨t1, ht1, rfl⟩, ⟨BASE_URL, rfl⟩⟩
      · exact fun e he =>
          ⟨0, [.sendMessage, .startRun, .fetchMessages], by simp [pipeline_kinds]⟩
  · -- stage 1 ok
    rename_i tid heq1
    rcases remote_call_cases env.tokenSource 0 .createThread
        (BASE_URL ++ "?api-version=" ++ API_VERSION) .empty
        env.createThreadResp with ⟨hc1, hr1⟩ | ⟨t1, ht1, hc1, hres1⟩
    · rw [heq1] at hr1
      exact absurd hr1 (by simp)
    rw [remote_call_nextTok env.tokenSource 0 .createThread
      (BASE_URL ++ "?api-version=" ++ API_VERSION) .empty env.createThreadResp]
    split
    · -- stage 2 raised
      rcases remote_call_cases env.tokenSource (0 + 1) .sendMessage
          ((BASE_URL ++ "/" ++ tid ++ "/messages") ++ "?api-version=" ++
            API_VERSION) (.userMessage q) env.sendMessageResp with
        ⟨hc2, hr2⟩ | ⟨t2, ht2, hc2, hres2⟩
      · rw [hc1, hc2]
        refine ⟨?_, ?_, by simp, ?_⟩
        · simp only [List.append_nil]
          exact consec_singleton 0 _ rfl
        · intro c hc
          simp at hc
          subst hc
          exact ⟨⟨t1, ht1, rfl⟩, ⟨BASE_URL, rfl⟩⟩
        · exact fun e he =>
            ⟨0, [.sendMessage, .startRun, .fetchMessages], by simp [pipeline_kinds]⟩
      · rw [hc1, hc2]
        refine ⟨?_, ?_, by simp, ?_⟩
        · simp only [List.cons_append, List.nil_append]
          exact consec_cons 0 _ _ rfl (consec_singleton (0 + 1) _ rfl)
        · intro c hc
          simp at hc
          rcases hc with hc | hc <;> subst hc
          · exact ⟨⟨t1, ht1, rfl⟩, ⟨BASE_URL, rfl⟩⟩
          · exact ⟨⟨t2, ht2, rfl⟩,
              ⟨BASE_URL ++ "/" ++ tid ++ "/messages", rfl⟩⟩
        · exact fun e he => ⟨0, [.startRun, .fetchMessages], by simp [pipeline_kinds]⟩
    · -- stage 2 ok
      rename_i u2 heq2
      rcases remote_call_cases env.tokenSource (0 + 1) .sendMessage
          ((BASE_URL ++ "/" ++ tid ++ "/messages") ++ "?api-version=" ++
            API_VERSION) (.userMessage q) env.sendMessageResp with
        ⟨hc2, hr2⟩ | ⟨t2, ht2, hc2, hres2⟩
      · rw [heq2] at hr2
        exact absurd hr2 (by simp)
      rw [remote_call_nextTok env.tokenSource (0 + 1) .sendMessage
        ((BASE_URL ++ "/" ++ tid ++ "/messages") ++ "?api-version=" ++
          API_VERSION) (.userMessage q) env.sendMessageResp]
      split
      · -- stage 3 raised
        rcases remote_call_cases env.tokenSource (0 + 1 + 1) .startRun
            ((BASE_URL ++ "/" ++ tid ++ "/runs") ++ "?api-version=" ++
              API_VERSION) (.runStart AGENT_ID) env.startRunResp with
          ⟨hc3, hr3⟩ | ⟨t3, ht3, hc3, hres3⟩
        · rw [hc1, hc2, hc3]
          refine ⟨?_, ?_, by simp, ?_⟩
          · simp only [List.cons_append, List.nil_append, List.append_nil]
            exact consec_cons 0 _ _ rfl (consec_singleton (0 + 1) _ rfl)
          · intro c hc
            simp at hc
            rcases hc with hc | hc <;> subst hc
            · exact ⟨⟨t1, ht1, rfl⟩, ⟨BASE_URL, rfl⟩⟩
            · exact ⟨⟨t2, ht2, rfl⟩,
                ⟨BASE_URL ++ "/" ++ tid ++ "/messages", rfl⟩⟩
          · exact fun e he => ⟨0, [.startRun, .fetchMessages], by simp [pipeline_kinds]⟩
        · rw [hc1, hc2, hc3]
          refine ⟨?_, ?_, by simp, ?_⟩
          · simp only [List.cons_append, List.nil_append]
            exact consec_cons 0 _ _ rfl (consec_cons (0 + 1) _ _ rfl
              (consec_singleton (0 + 1 + 1) _ rfl))
          · intro c hc
            simp at hc
            rcases hc with hc | hc | hc <;> subst hc
            · exact ⟨⟨t1, ht1, rfl⟩, ⟨BASE_URL, rfl⟩⟩
            · exact ⟨⟨t2, ht2, rfl⟩,
                ⟨BASE_URL ++ "/" ++ tid ++ "/messages", rfl⟩⟩
            · exact ⟨⟨t3, ht3, rfl⟩,
                ⟨BASE_URL ++ "/" ++ tid ++ "/runs", rfl⟩⟩
          · exact fun e he => ⟨0, [.fetchMessages], by simp [pipeline_kinds]⟩
      · -- stage 3 ok
        rename_i rid heq3
        rcases remote_call_cases env.tokenSource (0 + 1 + 1) .startRun
            ((BASE_URL ++ "/" ++ tid ++ "/runs") ++ "?api-version=" ++
              API_VERSION) (.runStart AGENT_ID) env.startRunResp with
          ⟨hc3, hr3⟩ | ⟨t3, ht3, hc3, hres3⟩
        · rw [heq3] at hr3
          exact absurd hr3 (by simp)
        rw [remote_call_nextTok env.tokenSource (0 + 1 + 1) .startRun
          ((BASE_URL ++ "/" ++ tid ++ "/runs") ++ "?api-version=" ++
            API_VERSION) (.runStart AGENT_ID) env.startRunResp]
        obtain ⟨p1, p2, p3, p4⟩ := poll_run_shape env.tokenSource tid rid
          MAX_WAIT_SECONDS_DEFAULT env.pollSteps (0 + 1 + 1 + 1)
        split
        · -- stage 4 raised
          rw [hc1, hc2, hc3]
          refine ⟨?_, ?_, by simp, ?_⟩
          · simp only [List.cons_append, List.nil_append]
            exact consec_cons 0 _ _ rfl (consec_cons (0 + 1) _ _ rfl
              (consec_cons (0 + 1 + 1) _ _ rfl p1))
          · intro c hc
            simp at hc
            rcases hc with hc | hc | hc | hc
            · subst hc; exact ⟨⟨t1, ht1, rfl⟩, ⟨BASE_URL, rfl⟩⟩
            · subst hc
              exact ⟨⟨t2, ht2, rfl⟩,
                ⟨BASE_URL ++ "/" ++ tid ++ "/messages", rfl⟩⟩
            · subst hc
              exact ⟨⟨t3, ht3, rfl⟩,
                ⟨BASE_URL ++ "/" ++ tid ++ "/runs", rfl⟩⟩
            · exact p3 c hc
          · refine fun e he => ⟨(poll_run env.tokenSource tid rid
              MAX_WAIT_SECONDS_DEFAULT env.pollSteps (0 + 1 + 1 + 1)).calls.length,
              [.fetchMessages], ?_⟩
            simp [pipeline_kinds, p2, List.append_assoc]
        · -- stage 4 ok
          rename_i u4 heq4
          obtain ⟨⟩ := u4
          rw [p4 heq4]
          rcases get_latest_reply_call_eq env.tokenSource
              (0 + 1 + 1 + 1 + (poll_run env.tokenSource tid rid
                MAX_WAIT_SECONDS_DEFAULT env.pollSteps (0 + 1 + 1 + 1)).calls.length)
              tid env.messagesResp with ⟨g1, g2, g3⟩
          rw [hc1, hc2, hc3, g1, g3]
          rcases remote_call_cases env.tokenSource
              (0 + 1 + 1 + 1 + (poll_run env.tokenSource tid rid
                MAX_WAIT_SECONDS_DEFAULT env.pollSteps (0 + 1 + 1 + 1)).calls.length)
              .fetchMessages
              ((BASE_URL ++ "/" ++ tid ++ "/messages") ++ "?api-version=" ++
                API_VERSION) .empty env.messagesResp with
            ⟨hc5, hr5⟩ | ⟨t5, ht5, hc5, hres5⟩
          · rw [hc5, hr5]
            refine ⟨?_, ?_, by simp [Except.map], ?_⟩
            · simp only [List.cons_append, List.nil_append, List.append_nil]
              exact consec_cons 0 _ _ rfl (consec_cons (0 + 1) _ _ rfl
                (consec_cons (0 + 1 + 1) _ _ rfl p1))
            · intro c hc
              simp at hc
              rcases hc with hc | hc | hc | hc
              · subst hc; exact ⟨⟨t1, ht1, rfl⟩, ⟨BASE_URL, rfl⟩⟩
              · subst hc
                exact ⟨⟨t2, ht2, rfl⟩,
                  ⟨BASE_URL ++ "/" ++ tid ++ "/messages", rfl⟩⟩
              · subst hc
                exact ⟨⟨t3, ht3, rfl⟩,
                  ⟨BASE_URL ++ "/" ++ tid ++ "/runs", rfl⟩⟩
              · exact p3 c hc
            · refine fun e he => ⟨(poll_run env.tokenSource tid rid
                MAX_WAIT_SECONDS_DEFAULT env.pollSteps
                  (0 + 1 + 1 + 1)).calls.length, [.fetchMessages], ?_⟩
              simp [pipeline_kinds, p2, List.append_assoc]
          · rw [hc5]
            refine ⟨?_, ?_, ?_, ?_⟩
            · simp only [List.cons_append, List.nil_append]
              refine consec_cons 0 _ _ rfl (consec_cons (0 + 1) _ _ rfl
                (consec_cons (0 + 1 + 1) _ _ rfl (consec_append p1
                  (consec_singleton _ _ rfl))))
            · intro c hc
              simp at hc
              rcases hc with hc | hc | hc | hc | hc
              · subst hc; exact ⟨⟨t1, ht1, rfl⟩, ⟨BASE_URL, rfl⟩⟩
              · subst hc
                exact ⟨⟨t2, ht2, rfl⟩,
                  ⟨BASE_URL ++ "/" ++ tid ++ "/messages", rfl⟩⟩
              · subst hc
                exact ⟨⟨t3, ht3, rfl⟩,
                  ⟨BASE_URL ++ "/" ++ tid ++ "/runs", rfl⟩⟩
              · exact p3 c hc
              · subst hc
                exact ⟨⟨t5, ht5, rfl⟩,
                  ⟨BASE_URL ++ "/" ++ tid ++ "/messages", rfl⟩⟩
            · intro a ha
              refine ⟨(poll_run env.tokenSource tid rid
                MAX_WAIT_SECONDS_DEFAULT env.pollSteps
                  (0 + 1 + 1 + 1)).calls.length, ?_⟩
              simp [pipeline_kinds, p2, List.append_assoc]
            · intro e he
              refine ⟨(poll_run env.tokenSource tid rid
                MAX_WAIT_SECONDS_DEFAULT env.pollSteps
                  (0 + 1 + 1 + 1)).calls.length, [], ?_⟩
              simp [pipeline_kinds, p2, List.append_assoc]

/-- C1: the caller-visible outcome of a chat request is classified
exactly as: 200 with an answer when the whole pipeline succeeds, 400
when the query is empty after stripping, 502 when a REST call raised
the requests exception (transport fault or non-success status), 504
when the poller raised `TimeoutError`, and 500 for any other failure
(`RuntimeError`: a reported run failure or a token-refresh failure). -/
theorem C1_outcome_classification (env : Env) (req : ChatRequest)
    (hpoll : (run_pipeline env (py_strip req.userQuery)).res ≠
      .error .exhausted) :
    ((chat env req).status = 400 ↔ py_strip req.userQuery = "") ∧
    ((chat env req).status = 200 ↔ ∃ a, (chat env req).answer = some a ∧
      (run_pipeline env (py_strip req.userQuery)).res = .ok a) ∧
    ((chat env req).status = 502 ↔ py_strip req.userQuery ≠ "" ∧
      (run_pipeline env (py_strip req.userQuery)).res = .error .reqExc) ∧
    ((chat env req).status = 504 ↔ py_strip req.userQuery ≠ "" ∧
      (run_pipeline env (py_strip req.userQuery)).res = .error .timeoutErr) ∧
    ((chat env req).status = 500 ↔ py_strip req.userQuery ≠ "" ∧
      ∃ m, (run_pipeline env (py_strip req.userQuery)).res =
        .error (.runtimeErr m)) := by
  by_cases hq : py_strip req.userQuery = ""
  · simp [chat, hq]
  · cases hres : (run_pipeline env (py_strip req.userQuery)).res with
    | ok a => simp [chat, hq, hres]
    | error e =>
      cases e with
      | reqExc => simp [chat, hq, hres, classify]
      | timeoutErr => simp [chat, hq, hres, classify]
      | runtimeErr m => simp [chat, hq, hres, classify]
      | exhausted => exact absurd hres hpoll

/-- C3: a query that is empty after stripping whitespace is rejected
with status 400 and zero outbound calls are performed. -/
theorem C3_empty_query_no_calls (env : Env) (req : ChatRequest)
    (h : py_strip req.userQuery = "") :
    chat env req = ⟨400, none, []⟩ := by
  simp [chat, h]

/-- C6: a 200 outcome carries an answer and its outbound calls follow
the strict stage order create thread, send message, start run, a block
of status polls, fetch messages; a non-200 outcome carries no answer
and its outbound calls are a prefix of such a sequence, so no stage
runs after a failed one. -/
theorem C6_pipeline_order (env : Env) (req : ChatRequest) :
    ((chat env req).status = 200 →
      (∃ a, (chat env req).answer = some a) ∧
      ∃ n, (chat env req).calls.map CallRecord.kind = pipeline_kinds n) ∧
    ((chat env req).status ≠ 200 →
      (chat env req).answer = none ∧
      ∃ n t, pipeline_kinds n = (chat env req).calls.map CallRecord.kind ++ t) := by
  obtain ⟨f1, f2, f3, f4⟩ := run_pipeline_facts env (py_strip req.userQuery)
  by_cases hq : py_strip req.userQuery = ""
  · refine ⟨fun h200 => ?_, fun _ => ?_⟩
    · have : (chat env req).status = 400 := by simp [chat, hq]
      rw [this] at h200
      simp at h200
    · have : chat env req = ⟨400, none, []⟩ := by simp [chat, hq]
      rw [this]
      exact ⟨rfl, 0, pipeline_kinds 0, by simp⟩
  · cases hres : (run_pipeline env (py_strip req.userQuery)).res with
    | ok a =>
      refine ⟨fun _ => ?_, fun hne => ?_⟩
      · refine ⟨⟨a, by simp [chat, hq, hres]⟩, ?_⟩
        have hcalls : (chat env req).calls =
            (run_pipeline env (py_strip req.userQuery)).calls := by
          simp [chat, hq, hres]
        rw [hcalls]
        exact f3 a hres
      · exact absurd (by simp [chat, hq, hres] :
          (chat env req).status = 200) hne
    | error e =>
      refine ⟨fun h200 => ?_, fun _ => ?_⟩
      · have : (chat env req).status = classify e := by simp [chat, hq, hres]
        rw [this] at h200
        cases e <;> simp [classify] at h200
      · have hcalls : (chat env req).calls =
            (run_pipeline env (py_strip req.userQuery)).calls := by
          simp [chat, hq, hres]
        have hans : (chat env req).answer = none := by simp [chat, hq, hres]
        refine ⟨hans, ?_⟩
        rw [hcalls]
        exact f4 e hres

/-- C8: every outbound call of a chat request carries an Authorization
header built from the token produced by that call's own token fetch and
a URL ending in the fixed API-version query parameter; the token-fetch
indices of the calls are 0, 1, 2, ... in order, so no two outbound
calls share a token fetch. -/
theorem C8_fresh_token_per_call (env : Env) (req : ChatRequest) :
    ((chat env req).calls.map CallRecord.tokenIndex =
      List.range (chat env req).calls.length) ∧
    ((chat env req).calls.map CallRecord.tokenIndex).Nodup ∧
    (∀ c ∈ (chat env req).calls,
      (∃ t, env.tokenSource c.tokenIndex = .ok t ∧ c.authHeader = bearer t) ∧
      (∃ p, c.url = p ++ "?api-version=" ++ API_VERSION)) := by
  obtain ⟨f1, f2, _, _⟩ := run_pipeline_facts env (py_strip req.userQuery)
  have key : (chat env req).calls.map CallRecord.tokenIndex =
      List.range' 0 (chat env req).calls.length ∧
      ∀ c ∈ (chat env req).calls, call_wf env.tokenSource c := by
    by_cases hq : py_strip req.userQuery = ""
    · have : chat env req = ⟨400, none, []⟩ := by simp [chat, hq]
      rw [this]
      exact ⟨by simp, by simp⟩
    · have hcalls : (chat env req).calls =
          (run_pipeline env (py_strip req.userQuery)).calls := by
        cases hres : (run_pipeline env (py_strip req.userQuery)).res with
        | ok a => simp [chat, hq, hres]
        | error e => simp [chat, hq, hres]
      rw [hcalls]
      exact ⟨f1, f2⟩
  refine ⟨?_, ?_, fun c hc => key.2 c hc⟩
  · rw [List.range_eq_range']
    exact key.1
  · rw [key.1]
    exact List.nodup_range' 0 (chat env req).calls.length

/-- C9: two chat requests with the same userQuery but different
optional context and userId fields produce identical outbound calls and
identical caller-visible outcomes: neither optional field influences
the pipeline. -/
theorem C9_context_userid_noninterference (env : Env) (q : String)
    (c1 u1 c2 u2 : Option String) :
    chat env ⟨q, c1, u1⟩ = chat env ⟨q, c2, u2⟩ := rfl

/-- A concrete token source used by the witnesses. -/
def demo_ts : TokenSource := fun n => .ok (toString n)

/-- A concrete assistant message used by the witnesses. -/
def demo_msg : Message :=
  ⟨some "assistant", [⟨some ⟨some "Returns accepted within 30 days."⟩⟩]⟩

/-- A concrete all-success environment used by the witnesses. -/
def demo_env : Env :=
  ⟨demo_ts, .ok "th1", .ok (), .ok "run1",
    [⟨0, .ok ⟨some "completed", none⟩⟩], .ok (some [demo_msg])⟩

/-- A concrete request used by the witnesses. -/
def demo_req : ChatRequest := ⟨"What is the return policy?", none, none⟩

/-- Witness for C1 at a concrete all-success environment. -/
theorem C1_outcome_classification_witness :
    (chat demo_env demo_req).status = 200 ↔
      ∃ a, (chat demo_env demo_req).answer = some a ∧
        (run_pipeline demo_env (py_strip demo_req.userQuery)).res = .ok a :=
  (C1_outcome_classification demo_env demo_req (by decide)).2.1

/-- Witness for C3 at a whitespace-only query. -/
theorem C3_empty_query_no_calls_witness :
    chat demo_env ⟨"   ", none, none⟩ = ⟨400, none, []⟩ :=
  C3_empty_query_no_calls demo_env ⟨"   ", none, none⟩ (by decide)

/-- The first outbound call of the demo request, written out. -/
def demo_call : CallRecord :=
  ⟨.createThread, BASE_URL ++ "?api-version=" ++ API_VERSION,
    "Bearer 0", .empty, 0⟩

/-- Witness for C8 at a concrete call of a concrete run. -/
theorem C8_fresh_token_per_call_witness :
    (∃ t, demo_env.tokenSource demo_call.tokenIndex = .ok t ∧
      demo_call.authHeader = bearer t) ∧
    (∃ p, demo_call.url = p ++ "?api-version=" ++ API_VERSION) :=
  (C8_fresh_token_per_call demo_env demo_req).2.2 demo_call (by decide)

/-- Witness for C6 at a concrete all-success environment. -/
theorem C6_pipeline_order_witness :
    (∃ a, (chat demo_env demo_req).answer = some a) ∧
    ∃ n, (chat demo_env demo_req).calls.map CallRecord.kind =
      pipeline_kinds n :=
  (C6_pipeline_order demo_env demo_req).1 (by decide)

end Testbi
